import Mathlib

/-!
Verification of the request-orchestration core of the FRL forwarding proxy
(`src/proxy.rs`): the live request handler `serve_req`, the batch replay job
`forward_stored_requests`, the upstream caller `call_cops`, and the
synthesized response builders.  External collaborators (the canonical
request/response types of `cops.rs`, the cache of `cache.rs`, the settings
of `settings.rs`) are not part of the sources; they are modelled from the
spec and marked as such.
-/

namespace FrlProxy

/-- Modelled from the spec: `ProxyMode` of `settings.rs` (not under the
sources), the closed operating-mode enum with variants Store and Forward. -/
inductive ProxyMode
  | store
  | forward
deriving DecidableEq, Repr

/-- Modelled from the spec: `BadRequest` of `cops.rs` (not under the
sources), the parse-failure value of the inbound parser, carrying a reason
string. -/
structure BadRequest where
  reason : String
deriving DecidableEq, Repr

/-- Modelled from the spec: `cops::Request` (the CanonicalRequest, not under
the sources): immutable, identified by `request_id`, carrying `kind`.  Only
the fields `proxy.rs` reads are kept. -/
structure CRequest where
  request_id : String
  kind : String
deriving DecidableEq, Repr

/-- A response body: either opaque bytes received from upstream, or the
synthesized serde_json envelope with a statusCode and a message field (kept
structurally, independent of its serialization to bytes). -/
inductive Body
  | raw (bytes : String)
  | json (statusCode : Nat) (message : String)
deriving DecidableEq, Repr

/-- A hyper network response as `proxy.rs` consumes it after
`hyper::body::to_bytes`: status, headers, body bytes. -/
structure NetResponse where
  status : Nat
  headers : List (String × String)
  body : Body
deriving DecidableEq, Repr

/-- The method `StatusCode::is_success` of hyper: status in the 2xx range. -/
def isSuccess (status : Nat) : Bool := 200 ≤ status && status < 300

/-- Modelled from the spec: `cops::Response` (the CanonicalResponse, not
under the sources): keyed by the `request_id` of the request it answers and
carrying the success body it was built from; `Response::from_network` is
called with exactly the request and the body bytes. -/
structure CResponse where
  request_id : String
  body : Body
deriving DecidableEq, Repr

/-- The constructor call `CResponse::from_network(&req, &body)` as used in
`proxy.rs`. -/
def CResponse.from_network (req : CRequest) (body : Body) : CResponse :=
  { request_id := req.request_id, body := body }

/-- Modelled from the spec: `Response::to_network` reconstitutes a cached
response (created only for success-classified statuses) as a network
response carrying the cached body. -/
def CResponse.to_network (r : CResponse) : NetResponse :=
  { status := 200, headers := [], body := r.body }

/-- Modelled from the spec: the cache mediator of `cache.rs` (not under the
sources), holding stored requests and responses keyed by `request_id`. -/
structure Cache where
  requests : List CRequest
  responses : List (String × CResponse)
deriving DecidableEq, Repr

/-- Modelled from the spec: `cache.store_request(&req)`. -/
def Cache.store_request (c : Cache) (req : CRequest) : Cache :=
  { c with requests := c.requests ++ [req] }

/-- Modelled from the spec: `cache.store_response(&req, &resp)`, keyed by the
request id. -/
def Cache.store_response (c : Cache) (req : CRequest) (resp : CResponse) : Cache :=
  { c with responses := (req.request_id, resp) :: c.responses }

/-- Modelled from the spec: `cache.fetch_response(&req)`, a lookup by the
request id. -/
def Cache.fetch_response (c : Cache) (req : CRequest) : Option CResponse :=
  (c.responses.find? (fun p => p.fst == req.request_id)).map Prod.snd

/-- Modelled from the spec: `cops::agent()`, the fixed server-identification
string placed in the server header of every synthesized response. -/
def agent : String := "frl-online-proxy"

/-- The builder `bad_request_response` of `proxy.rs`: status 400, the JSON
envelope carrying the validation reason, the JSON content-type header and
the server header. -/
def bad_request_response (err : BadRequest) : NetResponse :=
  { status := 400
    headers := [("content-type", "application/json;charset=UTF-8"), ("server", agent)]
    body := Body.json 400 err.reason }

/-- The builder `cops_failure_response` of `proxy.rs`: status 502, the JSON
envelope carrying the upstream error text. -/
def cops_failure_response (err : String) : NetResponse :=
  { status := 502
    headers := [("content-type", "application/json;charset=UTF-8"), ("server", agent)]
    body := Body.json 502 ("Failed to get a response from COPS: " ++ err) }

/-- The builder `proxy_offline_response` of `proxy.rs`: the fixed Store-mode
502 envelope. -/
def proxy_offline_response : NetResponse :=
  { status := 502
    headers := [("content-type", "application/json;charset=UTF-8"), ("server", agent)]
    body := Body.json 502 "Proxy is operating offline: request stored for later replay" }

/-- Observable cache and network effects of the handlers, recorded in
program order. -/
inductive Event
  | storeRequest (id : String)
  | netCall (id : String)
  | storeResponse (id : String)
  | fetchResponse (id : String)
deriving DecidableEq, Repr

/-- Result of one run of `serve_req`: the client-visible response, the final
cache, and the effect trace. -/
structure ServeResult where
  response : NetResponse
  cache : Cache
  trace : List Event
deriving DecidableEq, Repr

/-- The handler `serve_req` of `proxy.rs`.  The inbound parse
(`CRequest::from_network`) and the outcome of `call_cops` are external
effects passed in as `parsed` and `upstream`; `upstream` is consulted only
where the code actually awaits `call_cops`.  On parse failure the 400 is
returned with no cache interaction; otherwise the request is stored, the
network step runs (skipped in Store mode in favour of the offline 502), and
the common classification tail either stores a success response or falls
back to a cached response on failure. -/
def serve_req (mode : ProxyMode) (parsed : Except BadRequest CRequest)
    (upstream : Except String NetResponse) (cache : Cache) : ServeResult :=
  match parsed with
  | .error err => { response := bad_request_response err, cache := cache, trace := [] }
  | .ok req =>
    let cache1 := cache.store_request req
    let netStep : NetResponse × List Event :=
      match mode with
      | .store => (proxy_offline_response, [])
      | .forward =>
        match upstream with
        | .ok resp => (resp, [Event.netCall req.request_id])
        | .error err => (cops_failure_response err, [Event.netCall req.request_id])
    let net_resp := netStep.fst
    if isSuccess net_resp.status then
      let resp := CResponse.from_network req net_resp.body
      { response := net_resp
        cache := cache1.store_response req resp
        trace := Event.storeRequest req.request_id ::
          (netStep.snd ++ [Event.storeResponse req.request_id]) }
    else
      match cache1.fetch_response req with
      | some cached =>
        { response := cached.to_network
          cache := cache1
          trace := Event.storeRequest req.request_id ::
            (netStep.snd ++ [Event.fetchResponse req.request_id]) }
      | none =>
        { response := net_resp
          cache := cache1
          trace := Event.storeRequest req.request_id ::
            (netStep.snd ++ [Event.fetchResponse req.request_id]) }

/-- Result of one pass of `forward_stored_requests`: the reported counters,
the final cache, and the effect trace. -/
structure ForwardResult where
  successes : Nat
  failures : Nat
  cache : Cache
  trace : List Event
deriving DecidableEq, Repr

/-- The sequential loop body of `forward_stored_requests` over the stored
requests paired with the outcome of each `call_cops` invocation: a
success-classified response is cached and counted as a success, a
failure-classified response is only counted as a failure, and a transport
error is logged and skipped (no counter, no cache write). -/
def forward_loop : List (CRequest × Except String NetResponse) → Cache → ForwardResult
  | [], cache => { successes := 0, failures := 0, cache := cache, trace := [] }
  | (req, outcome) :: rest, cache =>
    match outcome with
    | .ok net_resp =>
      if isSuccess net_resp.status then
        let resp := CResponse.from_network req net_resp.body
        let r := forward_loop rest (cache.store_response req resp)
        { successes := r.successes + 1, failures := r.failures, cache := r.cache
          trace := Event.netCall req.request_id ::
            Event.storeResponse req.request_id :: r.trace }
      else
        let r := forward_loop rest cache
        { successes := r.successes, failures := r.failures + 1, cache := r.cache
          trace := Event.netCall req.request_id :: r.trace }
    | .error _ =>
      let r := forward_loop rest cache
      { r with trace := Event.netCall req.request_id :: r.trace }

/-- The job `forward_stored_requests` of `proxy.rs`: `pending` is the list
`cache.fetch_forwarding_requests()` returned, `outcomes` the positional
results of the per-request `call_cops` calls. -/
def forward_stored_requests (pending : List CRequest)
    (outcomes : List (Except String NetResponse)) (cache : Cache) : ForwardResult :=
  forward_loop (pending.zip outcomes) cache

/-- The components hyper exposes on a parsed `Uri` and `call_cops` reads:
the scheme, the host and the port.  A relative-reference string (for example
a bare path) parses successfully with no authority, so the host is
optional. -/
structure UriParts where
  scheme : Option String
  host : Option String
  port : Option Nat
deriving DecidableEq, Repr

/-- Outcome of the host-resolution prelude of `call_cops`: a process-aborting
panic from the uri parse, a process-aborting panic from unwrapping a missing
host, or the resolved scheme and host target. -/
inductive Resolved
  | parsePanic (msg : String)
  | hostPanic
  | target (scheme : String) (hostPort : String)
deriving DecidableEq, Repr

/-- Whether the resolution outcome terminates the process. -/
def Resolved.isFatal : Resolved → Bool
  | .parsePanic _ => true
  | .hostPanic => true
  | .target _ _ => false

/-- The host-resolution prelude of `call_cops`: a parse failure of
`remote_host` panics with the formatted message; the scheme defaults to
http unless it is exactly https; both port branches call
`cops_uri.host().unwrap()`, which panics when the parsed URI carries no
host. -/
def resolve_cops_target (remote_host : String) (parsed : Option UriParts) : Resolved :=
  match parsed with
  | none => .parsePanic ("failed to parse uri: " ++ remote_host)
  | some u =>
    let cops_scheme := match u.scheme with
      | some "https" => "https"
      | _ => "http"
    match u.port with
    | some port =>
      match u.host with
      | some h => .target cops_scheme (h ++ ":" ++ toString port)
      | none => .hostPanic
    | none =>
      match u.host with
      | some h => .target cops_scheme h
      | none => .hostPanic

/-- Modelled from the spec plus the field reads in `proxy.rs`: the network
section of `Settings` (`settings.rs` is not under the sources). -/
structure NetworkConfig where
  use_proxy : Bool
  proxy_host : String
  proxy_port : String
  use_basic_auth : Bool
  proxy_username : String
  proxy_password : String
deriving DecidableEq, Repr

/-- The closed set of transports `call_cops` selects from: the corporate
proxy connector (with its URL and optional basic-auth credentials), the
direct TLS connector, or the direct plain connector. -/
inductive Transport
  | viaProxy (proxy_url : String) (auth : Option (String × String))
  | directTls
  | directPlain
deriving DecidableEq, Repr

/-- The transport selection of `call_cops`: the corporate proxy when
`use_proxy` is set, with the proxy URL formatted from the literal scheme
http and the configured host and port, and credentials attached when
`use_basic_auth`; otherwise TLS when the resolved upstream scheme is https,
else plain HTTP. -/
def select_transport (net : NetworkConfig) (cops_scheme : String) : Transport :=
  if net.use_proxy then
    Transport.viaProxy ("http" ++ "://" ++ net.proxy_host ++ ":" ++ net.proxy_port)
      (if net.use_basic_auth then some (net.proxy_username, net.proxy_password) else none)
  else if cops_scheme = "https" then Transport.directTls
  else Transport.directPlain

/-- The fixed production deadline of `call_cops`: 59000 milliseconds, just
under the typical 60-second client timeout. -/
def default_timeout : Nat := 59000

/-- The effective deadline of `call_cops`: the environment override
FRL_PROXY_TIMEOUT is compiled in only under debug assertions
(non-production builds); its value arrives here already parsed. -/
def effective_timeout (debug_assertions : Bool) (envOverride : Option Nat) : Nat :=
  if debug_assertions then
    match envOverride with
    | some n => n
    | none => default_timeout
  else default_timeout

/-- The error text of the timeout branch of `call_cops`. -/
def timeout_error_message (timeout : Nat) : String :=
  "Timeout - no response received in " ++ toString timeout ++ " milliseconds"

/-- What the issued upstream request can do, as far as `call_cops` observes
it: a response arrived, the client returned a transport error, the deadline
expired, or the corporate-proxy setup failed before issuing. -/
inductive NetOutcome
  | response (resp : NetResponse)
  | netError (err : String)
  | timedOut
  | proxyUrlParseError
  | proxyConnectorError
deriving DecidableEq, Repr

/-- Whether the outcome is an actual upstream response. -/
def NetOutcome.isResponse : NetOutcome → Bool
  | .response _ => true
  | _ => false

/-- The result of `call_cops` once resolution succeeded: every non-response
outcome becomes a recoverable error value carrying the corresponding
context text from `proxy.rs`, never a panic. -/
def call_result (timeout : Nat) (outcome : NetOutcome) : Except String NetResponse :=
  match outcome with
  | .response resp => .ok resp
  | .netError err => .error ("Network error: " ++ err)
  | .timedOut => .error (timeout_error_message timeout)
  | .proxyUrlParseError => .error "Cannot parse upstream proxy URL"
  | .proxyConnectorError => .error "Failed to create proxy connector"

/-- Whether an event is a network attempt. -/
def isNetCall : Event → Bool
  | .netCall _ => true
  | _ => false

/-- The request id of a network-attempt event. -/
def netCallId : Event → Option String
  | .netCall id => some id
  | _ => none

/-- Whether an event is a response cache write. -/
def isStoreResponse : Event → Bool
  | .storeResponse _ => true
  | _ => false

/-- Scanning a trace front to back, a request cache write occurs before any
network attempt (also true when no network attempt occurs at all). -/
def storeBeforeAnyNetCall : List Event → Bool
  | [] => true
  | Event.storeRequest _ :: _ => true
  | Event.netCall _ :: _ => false
  | _ :: rest => storeBeforeAnyNetCall rest

/-- The live failure path predicate: the upstream call returned a
failure-classified status, or errored. -/
def failureOutcome : Except String NetResponse → Bool
  | .ok resp => !isSuccess resp.status
  | .error _ => true

/-- Count of outcomes that are success-classified responses. -/
def countSuccessOutcomes (outcomes : List (Except String NetResponse)) : Nat :=
  (outcomes.filter (fun o => match o with
    | .ok resp => isSuccess resp.status
    | .error _ => false)).length

/-- Count of outcomes that are failure-classified responses. -/
def countFailureOutcomes (outcomes : List (Except String NetResponse)) : Nat :=
  (outcomes.filter (fun o => match o with
    | .ok resp => !isSuccess resp.status
    | .error _ => false)).length

/-- Count of outcomes that are transport errors. -/
def countTransportErrors (outcomes : List (Except String NetResponse)) : Nat :=
  (outcomes.filter (fun o => match o with
    | .ok _ => false
    | .error _ => true)).length

/-- The request ids of the entries whose outcome was a success-classified
response (the entries the loop writes to the cache). -/
def successStoredIds : List (CRequest × Except String NetResponse) → List String
  | [] => []
  | (req, .ok resp) :: rest =>
    if isSuccess resp.status then req.request_id :: successStoredIds rest
    else successStoredIds rest
  | (_, .error _) :: rest => successStoredIds rest

/-- Concrete fixture: a parsed canonical request. -/
def req0 : CRequest := { request_id := "r-1", kind := "activation" }

/-- Concrete fixture: a success-classified upstream response. -/
def resp0 : NetResponse := { status := 200, headers := [], body := Body.raw "license-payload" }

/-- Concrete fixture: a previously cached canonical response for `req0`. -/
def cachedResp0 : CResponse := { request_id := "r-1", body := Body.raw "cached-body" }

/-- Concrete fixture: an empty cache. -/
def emptyCache : Cache := { requests := [], responses := [] }

/-- Concrete fixture: a cache already holding a response for `req0`. -/
def warmCache : Cache := { requests := [], responses := [("r-1", cachedResp0)] }

end FrlProxy
namespace FrlProxy

/-- C1: for every successfully parsed inbound request, in both modes and for
every upstream outcome, the handler writes the request to the cache before
any network attempt: the trace reaches the request cache write before any
network-call event, the write event is present, and the request is in the
final cache. -/
theorem serve_req_stores_request_before_network
    (mode : ProxyMode) (req : CRequest) (upstream : Except String NetResponse)
    (cache : Cache) :
    storeBeforeAnyNetCall (serve_req mode (.ok req) upstream cache).trace = true ∧
    Event.storeRequest req.request_id ∈ (serve_req mode (.ok req) upstream cache).trace ∧
    req ∈ (serve_req mode (.ok req) upstream cache).cache.requests := by
  cases mode <;> cases upstream <;>
    simp only [serve_req, Cache.store_request, Cache.store_response] <;>
    (repeat' split) <;>
    simp [storeBeforeAnyNetCall, List.mem_append]

end FrlProxy
namespace FrlProxy

/-- Storing a request does not change the stored responses, so a response
fetch reads the same as before. -/
theorem fetch_response_store_request (c : Cache) (r q : CRequest) :
    (c.store_request r).fetch_response q = c.fetch_response q := rfl

/-- C2 counterexample: in Store mode, for a parsed request whose id already
has a cached response, the client receives the cached response (a 200 with
the cached body), not the fixed offline 502 envelope. -/
theorem store_mode_cached_response_counterexample :
    (serve_req .store (.ok req0) (.error "unused") warmCache).response ≠
      proxy_offline_response ∧
    (serve_req .store (.ok req0) (.error "unused") warmCache).response =
      cachedResp0.to_network := by
  decide

/-- C2 (amended): in Store mode, no network call is ever issued for a parsed
request; the client receives the previously cached response when one exists
for the request id, and the fixed offline 502 envelope otherwise. -/
theorem store_mode_no_network_cached_or_offline
    (req : CRequest) (upstream : Except String NetResponse) (cache : Cache) :
    (serve_req .store (.ok req) upstream cache).trace.all
      (fun e => !isNetCall e) = true ∧
    (serve_req .store (.ok req) upstream cache).response =
      (match cache.fetch_response req with
       | some cached => cached.to_network
       | none => proxy_offline_response) := by
  cases hc : cache.fetch_response req <;>
    simp [serve_req, fetch_response_store_request, hc, isNetCall, isSuccess,
      proxy_offline_response]

/-- C6: for every inbound request that fails to parse, in every mode and for
every (unconsulted) upstream outcome, the handler returns exactly the 400
response carrying the JSON envelope with statusCode 400 and the validation
reason, the JSON content-type header and the fixed server header, leaves the
cache untouched and performs no cache or network effect. -/
theorem serve_req_bad_request_envelope
    (mode : ProxyMode) (err : BadRequest) (upstream : Except String NetResponse)
    (cache : Cache) :
    serve_req mode (.error err) upstream cache =
      { response := bad_request_response err, cache := cache, trace := [] } ∧
    bad_request_response err =
      { status := 400
        headers := [("content-type", "application/json;charset=UTF-8"), ("server", agent)]
        body := Body.json 400 err.reason } :=
  ⟨rfl, rfl⟩

end FrlProxy
namespace FrlProxy

/-- Storing a response for a request makes the fetch for that request return
exactly that response. -/
theorem fetch_response_store_response (c : Cache) (r : CRequest) (resp : CResponse) :
    (c.store_response r resp).fetch_response r = some resp := by
  simp [Cache.store_response, Cache.fetch_response, List.find?]

/-- C3: on the live failure path (failure-classified upstream status, or
upstream call error), the client receives the cached response for the
request id when one exists, and otherwise the failure response exactly as
received (the upstream response itself, or the synthesized 502). -/
theorem serve_req_failure_path_uses_cache_fallback
    (req : CRequest) (upstream : Except String NetResponse) (cache : Cache)
    (h : failureOutcome upstream = true) :
    (serve_req .forward (.ok req) upstream cache).response =
      (match cache.fetch_response req with
       | some cached => cached.to_network
       | none =>
         match upstream with
         | .ok resp => resp
         | .error err => cops_failure_response err) := by
  cases upstream with
  | ok resp =>
    have hs : isSuccess resp.status = false := by simpa [failureOutcome] using h
    cases hc : cache.fetch_response req <;>
      simp [serve_req, fetch_response_store_request, hc, hs]
  | error err =>
    cases hc : cache.fetch_response req <;>
      simp [serve_req, fetch_response_store_request, hc, isSuccess, cops_failure_response]

/-- C3 witness: a concrete failure-path run (transport error, warm cache)
where the client receives the cached response. -/
theorem serve_req_failure_path_witness :
    failureOutcome (.error "connection refused") = true ∧
    (serve_req .forward (.ok req0) (.error "connection refused") warmCache).response =
      cachedResp0.to_network :=
  ⟨rfl, (serve_req_failure_path_uses_cache_fallback req0 (.error "connection refused")
      warmCache rfl).trans (by decide)⟩

/-- C4: on a success-classified upstream response, the client-visible
response is the upstream response unchanged (status, headers, body bytes),
and the response is persisted under the request id before the handler
returns, so fetching the same request id from the final cache yields the
canonical response built from that body. -/
theorem serve_req_success_path_verbatim_and_cached
    (req : CRequest) (resp : NetResponse) (cache : Cache)
    (h : isSuccess resp.status = true) :
    (serve_req .forward (.ok req) (.ok resp) cache).response = resp ∧
    (serve_req .forward (.ok req) (.ok resp) cache).cache.fetch_response req =
      some (CResponse.from_network req resp.body) := by
  constructor
  · simp [serve_req, h]
  · simp [serve_req, h, fetch_response_store_response]

/-- C4 witness: a concrete success-path run with a 200 upstream response. -/
theorem serve_req_success_path_witness :
    isSuccess resp0.status = true ∧
    ((serve_req .forward (.ok req0) (.ok resp0) emptyCache).response = resp0 ∧
     (serve_req .forward (.ok req0) (.ok resp0) emptyCache).cache.fetch_response req0 =
       some (CResponse.from_network req0 resp0.body)) :=
  ⟨by decide, serve_req_success_path_verbatim_and_cached req0 resp0 emptyCache (by decide)⟩

end FrlProxy
namespace FrlProxy

/-- Every response cache write of the replay loop belongs to an entry whose
outcome was a success-classified response. -/
theorem forward_loop_store_event
    (l : List (CRequest × Except String NetResponse)) (cache : Cache) (id : String) :
    Event.storeResponse id ∈ (forward_loop l cache).trace →
    id ∈ successStoredIds l := by
  induction l generalizing cache with
  | nil => simp [forward_loop, successStoredIds]
  | cons p rest ih =>
    obtain ⟨req, outcome⟩ := p
    intro hmem
    cases outcome with
    | ok net_resp =>
      by_cases hs : isSuccess net_resp.status
      · simp [forward_loop, hs] at hmem
        simp [successStoredIds, hs]
        rcases hmem with h2 | h3
        · exact Or.inl h2
        · exact Or.inr (ih _ h3)
      · simp [forward_loop, hs] at hmem
        simp [successStoredIds, hs]
        exact ih _ hmem
    | error e =>
      simp [forward_loop] at hmem
      simp [successStoredIds]
      exact ih _ hmem

/-- C5: in the live handler and in the batch replay alike, a response cache
write happens only for a success-classified received response: in the live
handler a response store event forces the upstream outcome to be a
success-classified response, and in the replay loop every stored id belongs
to an entry whose outcome was a success-classified response. -/
theorem store_response_only_on_success
    (mode : ProxyMode) (req : CRequest) (upstream : Except String NetResponse)
    (cache : Cache) (id id2 : String)
    (pending : List CRequest) (outcomes : List (Except String NetResponse))
    (fcache : Cache) :
    (Event.storeResponse id ∈ (serve_req mode (.ok req) upstream cache).trace →
      failureOutcome upstream = false) ∧
    (Event.storeResponse id2 ∈ (forward_stored_requests pending outcomes fcache).trace →
      id2 ∈ successStoredIds (pending.zip outcomes)) := by
  constructor
  · intro hmem
    cases mode <;> cases upstream <;>
      simp only [serve_req, Cache.store_request, Cache.store_response] at hmem <;>
      (repeat' split at hmem) <;>
      simp_all [failureOutcome, isSuccess, proxy_offline_response, cops_failure_response]
  · exact forward_loop_store_event _ _ _

/-- C5 witness: a concrete success-classified outcome on both paths. -/
theorem store_response_only_on_success_witness :
    failureOutcome (.ok resp0) = false ∧
    "r-1" ∈ successStoredIds ([req0].zip [Except.ok resp0]) := by
  constructor
  · exact (store_response_only_on_success .forward req0 (.ok resp0) emptyCache "r-1" "r-1"
      [req0] [.ok resp0] emptyCache).1 (by decide)
  · exact (store_response_only_on_success .forward req0 (.ok resp0) emptyCache "r-1" "r-1"
      [req0] [.ok resp0] emptyCache).2 (by decide)

end FrlProxy
namespace FrlProxy

/-- The replay loop, over any zipped run: the reported counters equal the
counts of success- and failure-classified outcomes, the network calls happen
once per entry in the fetched order, the response cache writes are as many
as the successes, and the stored requests are untouched. -/
theorem forward_loop_spec
    (l : List (CRequest × Except String NetResponse)) (cache : Cache) :
    (forward_loop l cache).successes = countSuccessOutcomes (l.map Prod.snd) ∧
    (forward_loop l cache).failures = countFailureOutcomes (l.map Prod.snd) ∧
    (forward_loop l cache).trace.filterMap netCallId =
      l.map (fun p => p.fst.request_id) ∧
    ((forward_loop l cache).trace.filter isStoreResponse).length =
      countSuccessOutcomes (l.map Prod.snd) ∧
    (forward_loop l cache).cache.requests = cache.requests := by
  induction l generalizing cache with
  | nil => simp [forward_loop, countSuccessOutcomes, countFailureOutcomes]
  | cons p rest ih =>
    obtain ⟨req, outcome⟩ := p
    cases outcome with
    | ok net_resp =>
      by_cases hs : isSuccess net_resp.status <;>
        simp [forward_loop, hs, countSuccessOutcomes, countFailureOutcomes,
          netCallId, isStoreResponse, Cache.store_response, ih,
          (ih (cache.store_response req (CResponse.from_network req net_resp.body))).2.2.2.2]
    | error e =>
      simp [forward_loop, countSuccessOutcomes, countFailureOutcomes,
        netCallId, isStoreResponse, ih]

/-- The three outcome classes partition the outcome list. -/
theorem count_outcomes_total (outcomes : List (Except String NetResponse)) :
    countSuccessOutcomes outcomes + countFailureOutcomes outcomes +
      countTransportErrors outcomes = outcomes.length := by
  induction outcomes with
  | nil => rfl
  | cons o rest ih =>
    simp only [countSuccessOutcomes, countFailureOutcomes, countTransportErrors,
      List.filter_cons, List.length_cons] at ih ⊢
    cases o with
    | ok resp =>
      by_cases hs : isSuccess resp.status <;> simp [hs] <;> omega
    | error e =>
      simp
      omega

end FrlProxy

namespace FrlProxy

/-- C7: over N pending requests with one upstream outcome each, the replay
pass processes the requests once each, sequentially in the fetched order,
and reports exactly the count of success-classified responses and the count
of failure-classified responses; transport errors are counted in neither
total (the three classes partition the N outcomes), get no cache write
(response writes equal the success count) and no retry within the pass (one
network call per request); the stored requests are untouched; over zero
pending requests the job does nothing and reports zero successes and zero
failures. -/
theorem forward_stored_requests_report
    (pending : List CRequest) (outcomes : List (Except String NetResponse))
    (cache : Cache) (h : pending.length = outcomes.length) :
    (forward_stored_requests pending outcomes cache).successes =
      countSuccessOutcomes outcomes ∧
    (forward_stored_requests pending outcomes cache).failures =
      countFailureOutcomes outcomes ∧
    countSuccessOutcomes outcomes + countFailureOutcomes outcomes +
      countTransportErrors outcomes = pending.length ∧
    (forward_stored_requests pending outcomes cache).trace.filterMap netCallId =
      pending.map (fun r => r.request_id) ∧
    ((forward_stored_requests pending outcomes cache).trace.filter
      isStoreResponse).length = countSuccessOutcomes outcomes ∧
    (forward_stored_requests pending outcomes cache).cache.requests =
      cache.requests ∧
    forward_stored_requests [] [] cache =
      { successes := 0, failures := 0, cache := cache, trace := [] } := by
  have hsnd : (pending.zip outcomes).map Prod.snd = outcomes :=
    List.map_snd_zip pending outcomes (le_of_eq h.symm)
  have hfst : (pending.zip outcomes).map Prod.fst = pending :=
    List.map_fst_zip pending outcomes (le_of_eq h)
  have hmap : (pending.zip outcomes).map (fun p => p.fst.request_id) =
      pending.map (fun r => r.request_id) := by
    calc (pending.zip outcomes).map (fun p => p.fst.request_id)
        = ((pending.zip outcomes).map Prod.fst).map (fun r => r.request_id) := by
          rw [List.map_map]
          rfl
      _ = pending.map (fun r => r.request_id) := by rw [hfst]
  have hs := forward_loop_spec (pending.zip outcomes) cache
  rw [hsnd, hmap] at hs
  refine ⟨hs.1, hs.2.1, ?_, hs.2.2.1, hs.2.2.2.1, hs.2.2.2.2, rfl⟩
  rw [h]
  exact count_outcomes_total outcomes

/-- C7 witness: a single pending request answered with a 200. -/
theorem forward_stored_requests_report_witness :
    (forward_stored_requests [req0] [Except.ok resp0] emptyCache).successes =
      countSuccessOutcomes [Except.ok resp0] ∧
    (forward_stored_requests [req0] [Except.ok resp0] emptyCache).failures =
      countFailureOutcomes [Except.ok resp0] ∧
    countSuccessOutcomes [Except.ok resp0] + countFailureOutcomes [Except.ok resp0] +
      countTransportErrors [Except.ok resp0] = [req0].length ∧
    (forward_stored_requests [req0] [Except.ok resp0] emptyCache).trace.filterMap
      netCallId = [req0].map (fun r => r.request_id) ∧
    ((forward_stored_requests [req0] [Except.ok resp0] emptyCache).trace.filter
      isStoreResponse).length = countSuccessOutcomes [Except.ok resp0] ∧
    (forward_stored_requests [req0] [Except.ok resp0] emptyCache).cache.requests =
      emptyCache.requests ∧
    forward_stored_requests [] [] emptyCache =
      { successes := 0, failures := 0, cache := emptyCache, trace := [] } :=
  forward_stored_requests_report [req0] [Except.ok resp0] emptyCache rfl

end FrlProxy
namespace FrlProxy

/-- C8: the timeout branch of the upstream call resolves to an error value
whose message names the elapsed-millisecond threshold; the default deadline
is 59000 milliseconds; the environment override of the deadline is honored
only in debug builds (in production builds the effective deadline is the
default whatever the environment holds). -/
theorem call_cops_timeout_policy (t n : Nat) (envOverride : Option Nat) :
    call_result t NetOutcome.timedOut = Except.error (timeout_error_message t) ∧
    (∃ before after, timeout_error_message t = before ++ toString t ++ after) ∧
    default_timeout = 59000 ∧
    effective_timeout false envOverride = default_timeout ∧
    effective_timeout true (some n) = n ∧
    effective_timeout true none = default_timeout :=
  ⟨rfl, ⟨"Timeout - no response received in ", " milliseconds", rfl⟩, rfl, rfl, rfl, rfl⟩

/-- C9 counterexample: a configured host string can parse successfully (a
relative-reference URI such as a bare path parses with no authority) and
still terminate the process, through the unwrap of the missing host; so
process termination is not equivalent to an unparsable host string. -/
theorem resolve_host_unwrap_panic_counterexample :
    resolve_cops_target "/v2/cops"
      (some { scheme := none, host := none, port := none }) = Resolved.hostPanic ∧
    (some { scheme := none, host := none, port := none } : Option UriParts) ≠
      none := by
  exact ⟨rfl, by decide⟩

/-- C9 (amended): the upstream call terminates the process exactly when the
configured host string is unparsable or parses to a URI without a host
component; whenever it parses with a host, resolution succeeds (with the
scheme defaulting to http when absent), and every non-response outcome of
the issued call is returned as a recoverable error value. -/
theorem resolve_fatal_iff_unparsable_or_hostless
    (remote_host : String) (parsed : Option UriParts) (t : Nat) (o : NetOutcome) :
    ((resolve_cops_target remote_host parsed).isFatal = true ↔
      parsed = none ∨ ∃ u, parsed = some u ∧ u.host = none) ∧
    (∀ u h, parsed = some u → u.host = some h → u.scheme = none →
      ∃ hp, resolve_cops_target remote_host parsed = Resolved.target "http" hp) ∧
    (o.isResponse = false → ∃ e, call_result t o = Except.error e) := by
  refine ⟨?_, ?_, ?_⟩
  · cases parsed with
    | none => simp [resolve_cops_target, Resolved.isFatal]
    | some u =>
      obtain ⟨scheme, host, port⟩ := u
      cases host <;> cases port <;>
        simp [resolve_cops_target, Resolved.isFatal]
  · intro u h hp hh hsch
    subst hp
    obtain ⟨scheme, host, port⟩ := u
    cases hh
    cases hsch
    cases port <;> simp [resolve_cops_target]
  · intro hr
    cases o with
    | response resp => simp [NetOutcome.isResponse] at hr
    | netError err => exact ⟨_, rfl⟩
    | timedOut => exact ⟨_, rfl⟩
    | proxyUrlParseError => exact ⟨_, rfl⟩
    | proxyConnectorError => exact ⟨_, rfl⟩

/-- C9 witness: a concrete host-bearing parse that resolves, and a concrete
non-response outcome returned as an error value. -/
theorem resolve_fatal_iff_witness :
    (∃ hp, resolve_cops_target "cops.adobe.io"
      (some { scheme := none, host := some "cops.adobe.io", port := none }) =
        Resolved.target "http" hp) ∧
    (∃ e, call_result 59000 NetOutcome.timedOut = Except.error e) :=
  ⟨(resolve_fatal_iff_unparsable_or_hostless "cops.adobe.io"
      (some { scheme := none, host := some "cops.adobe.io", port := none })
      59000 NetOutcome.timedOut).2.1 _ "cops.adobe.io" rfl rfl rfl,
   (resolve_fatal_iff_unparsable_or_hostless "cops.adobe.io"
      (some { scheme := none, host := some "cops.adobe.io", port := none })
      59000 NetOutcome.timedOut).2.2 rfl⟩

/-- C10: whenever corporate-proxy use is enabled, the selected transport is
the corporate-proxy connector whose URL is built with the plain http scheme
from the configured proxy host and port, for every configuration (with or
without basic-auth credentials attached) and regardless of the upstream
scheme being tunneled. -/
theorem corporate_proxy_url_plain_http
    (net : NetworkConfig) (cops_scheme : String) (h : net.use_proxy = true) :
    select_transport net cops_scheme =
      Transport.viaProxy ("http://" ++ net.proxy_host ++ ":" ++ net.proxy_port)
        (if net.use_basic_auth then some (net.proxy_username, net.proxy_password)
         else none) := by
  simp only [select_transport, h, if_true]
  rfl

/-- C10 witness: a concrete configuration with the corporate proxy enabled,
basic auth attached, and a secure upstream scheme being tunneled. -/
theorem corporate_proxy_url_plain_http_witness :
    select_transport
      { use_proxy := true, proxy_host := "proxy.corp.example", proxy_port := "8080",
        use_basic_auth := true, proxy_username := "u", proxy_password := "p" }
      "https" =
    Transport.viaProxy ("http://" ++ "proxy.corp.example" ++ ":" ++ "8080")
      (if true then some ("u", "p") else none) :=
  corporate_proxy_url_plain_http
    { use_proxy := true, proxy_host := "proxy.corp.example", proxy_port := "8080",
      use_basic_auth := true, proxy_username := "u", proxy_password := "p" }
    "https" rfl

end FrlProxy
